import Mathlib

/-!
Verification development for the csxlib schema/ORM layer.

The definitions below are a shallow embedding of the Go sources:
  * `dbschema/database/query.go`    — the query model and its SQL compiler;
  * `dbschema/database/postgres.go` — the PostgreSQL dialect engine;
  * the MySQL dialect engine (`mySQL` methods);
  * the schema-field extractor and migration diff (`prepareSchemaFields`,
    `getNewSchemaFields`);
  * `dbschema/schema.go`            — the typed CRUD layer.

Machine integers of the source are modelled by `Int`/`Nat` (no overflow is
reachable in the modelled code paths), `error` returns by `Except String`,
and Go string building by functional concatenation in the exact order the
source writes into its `strings.Builder`.
-/

namespace Csxlib

/-- Bound statement arguments (`interface\x7b\x7d` values in the source) are opaque
to statement generation; they are modelled by an arbitrary countable carrier. -/
def Val := Nat

instance : DecidableEq Val := fun a b => Nat.decEq a b

instance : Repr Val := inferInstanceAs (Repr Nat)

instance : OfNat Val n := ⟨(n : Nat)⟩

/- ------------------------------------------------------------------ -/
/- Query model (dbschema/database/query.go)                            -/
/- ------------------------------------------------------------------ -/

mutual

/-- `Query` from query.go: the dialect-neutral SELECT statement.
`From` is `interface\x7b\x7d` in Go (`nil`, a `string`, an `*AliasedQuery`, or any
other value); it is modelled by `Option FromClause` where `FromClause.invalid`
stands for every dynamic type other than `string` and `*AliasedQuery`. -/
inductive Query where
| mk (withL : List AliasedQuery) (union : Option UnionClause)
    (select : String) (fromC : Option FromClause)
    (join : String) (whereC : String) (group : String) (having : String)
    (order : String) (limit : Int) (offset : Int) : Query

/-- `AliasedQuery` from query.go: a sub-query together with its alias. -/
inductive AliasedQuery where
| mk (aliasName : String) (query : Query) : AliasedQuery

/-- `UnionClause` from query.go: ALL flag plus the linked query. -/
inductive UnionClause where
| mk (all : Bool) (query : Query) : UnionClause

/-- The dynamic value stored in `Query.From`. -/
inductive FromClause where
| table (s : String) : FromClause
| sub (aq : AliasedQuery) : FromClause
| invalid : FromClause

end

def Query.withL : Query → List AliasedQuery
| .mk w _ _ _ _ _ _ _ _ _ _ => w

def Query.union : Query → Option UnionClause
| .mk _ u _ _ _ _ _ _ _ _ _ => u

def Query.select : Query → String
| .mk _ _ s _ _ _ _ _ _ _ _ => s

def Query.fromC : Query → Option FromClause
| .mk _ _ _ f _ _ _ _ _ _ _ => f

def Query.join : Query → String
| .mk _ _ _ _ j _ _ _ _ _ _ => j

def Query.whereC : Query → String
| .mk _ _ _ _ _ w _ _ _ _ _ => w

def Query.group : Query → String
| .mk _ _ _ _ _ _ g _ _ _ _ => g

def Query.having : Query → String
| .mk _ _ _ _ _ _ _ h _ _ _ => h

def Query.order : Query → String
| .mk _ _ _ _ _ _ _ _ o _ _ => o

def Query.limit : Query → Int
| .mk _ _ _ _ _ _ _ _ _ l _ => l

def Query.offset : Query → Int
| .mk _ _ _ _ _ _ _ _ _ _ o => o

def AliasedQuery.aliasName : AliasedQuery → String
| .mk a _ => a

def AliasedQuery.query : AliasedQuery → Query
| .mk _ q => q

def UnionClause.all : UnionClause → Bool
| .mk a _ => a

def UnionClause.query : UnionClause → Query
| .mk _ q => q

/-- `SetDefaults` from query.go: default the projection to `*` and a nil FROM
to the schema's table name. -/
def Query.setDefaults : Query → String → Query
| .mk w u sel f j wh g h o l off, tableName =>
  .mk w u (if sel.length = 0 then "*" else sel)
    (if f.isNone then some (.table tableName) else f) j wh g h o l off

mutual

/-- `prepareFromClause` from query.go. The source writes the text into the
caller's `strings.Builder`; here each function returns the exact text it
appends, and callers concatenate in the source's write order. -/
def prepareFromClause : Option FromClause → Except String String
| some (.table s) => .ok ("\nFROM " ++ s)
| some (.sub (.mk a q)) =>
  if a.length = 0 then .error "the subquery in the FROM clause must have an alias"
  else do
    let s ← prepareSelectStatement q
    .ok ("\nFROM " ++ "(" ++ s ++ ") AS " ++ a)
| some .invalid => .error "FROM clause must be string or *database.Query"
| none => .error "FROM clause must be string or *database.Query"

/-- `prepareSelectStatement` from query.go. Note that it reads only the
SELECT/FROM/JOIN/WHERE/GROUP/HAVING/ORDER/LIMIT/OFFSET fields of its argument:
the `With` and `Union` fields of a nested query are never visited. -/
def prepareSelectStatement : Query → Except String String
| q@(.mk _ _ sel f j wh g h o l off) => do
  let _ := q
  let fromPart ← prepareFromClause f
  .ok ("\nSELECT " ++ sel ++ fromPart
    ++ (if j.length > 0 then "\n" ++ j else "")
    ++ (if wh.length > 0 then "\nWHERE " ++ wh else "")
    ++ (if g.length > 0 then
          "\nGROUP BY " ++ g ++ (if h.length > 0 then "\nHAVING " ++ h else "")
        else "")
    ++ (if o.length > 0 then "\nORDER BY " ++ o else "")
    ++ (if l > 0 then "\nLIMIT " ++ toString l else "")
    ++ (if off > 0 then "\nOFFSET " ++ toString off else ""))

/-- The loop body of `prepareWithClause` from query.go: one ` name AS (sub)`
chunk per entry, a comma after every entry except the last. -/
def prepareWithList : List AliasedQuery → Except String String
| [] => .ok ""
| [.mk a q] =>
  if a.length = 0 then .error "the subquery in the WITH clause must have an alias"
  else do
    let s ← prepareSelectStatement q
    .ok (" " ++ a ++ " AS (" ++ s ++ ")")
| .mk a q :: rest =>
  if a.length = 0 then .error "the subquery in the WITH clause must have an alias"
  else do
    let s ← prepareSelectStatement q
    let r ← prepareWithList rest
    .ok (" " ++ a ++ " AS (" ++ s ++ ")," ++ r)

/-- `prepareUnionClause` from query.go. The source builds the
`\nUNION[ ALL]\n` text in a LOCAL `strings.Builder` named `sb` and never
flushes it into the main builder, so that text is lost; `_sb` mirrors that
discarded value. -/
def prepareUnionClause : UnionClause → Except String String
| .mk allFlag q@(.mk _ u _ _ _ _ _ _ _ _ _) => do
  let _sb := "\nUNION" ++ (if allFlag then " ALL" else "") ++ "\n"
  let s ← prepareSelectStatement q
  match u with
  | some uc => do
    let r ← prepareUnionClause uc
    .ok (s ++ r)
  | none => .ok s

end

/-- `prepareQuery` from query.go: WITH clause, top-level SELECT, UNION
chain, each step returning its error as the Go source does. -/
def prepareQuery (q : Query) : Except String String :=
  match (if q.withL.length > 0
      then (prepareWithList q.withL).map (fun entries => "WITH" ++ entries)
      else .ok "") with
  | .error e => .error e
  | .ok withPart =>
    match prepareSelectStatement q with
    | .error e => .error e
    | .ok selPart =>
      match (match q.union with
          | some uc => prepareUnionClause uc
          | none => .ok "") with
      | .error e => .error e
      | .ok unionPart => .ok (withPart ++ selPart ++ unionPart)

/- ------------------------------------------------------------------ -/
/- Shared write-side data (dbschema/database/database.go, utils.go)    -/
/- ------------------------------------------------------------------ -/

/-- `ConflictClause` from query.go; `OnConflictDoNothing = 0` (iota). -/
structure ConflictClause where
  object : String
  strategy : Int
deriving DecidableEq, Repr

/-- `ReturningDest` from database.go: RETURNING column list plus scan
destinations. The destinations are opaque pointers; only their number is
observable to the modelled control flow, so `dest` is a list of opaque values
(`[]` models a nil destination slice, the only way `Returning` produces an
empty one). -/
structure ReturningDest where
  list : String
  dest : List Val
deriving DecidableEq, Repr

/-- `InsertExt` from query.go. -/
structure InsertExt where
  whereNotExists : String
  onConflict : Option ConflictClause
  returning : Option ReturningDest

/-- `PreparedData` from utils.go. The `Queries` map is modelled as an
association list in iteration order. -/
structure PreparedData where
  dbFields : List String
  values : List Val
  queries : List (String × Query)
  query : Option Query

/-- Observable effect of one call into the underlying `sqlx` executor. The
abstract database never fails, so the MySQL rollback branches are
unreachable in this model. -/
inductive DBAction where
| exec (query : String) (args : List Val)
| queryRowScan (query : String) (args : List Val) (destCount : Nat)
| selectInto (query : String) (destCount : Nat)
| txBegin
| txCommit
deriving DecidableEq, Repr

/-- `schemafield.SchemaField` (one column descriptor). -/
structure SchemaField where
  name : String
  migratable : Bool
  dbName : String
  dbType : String
  nullable : Bool
  isPrimaryKey : Bool
  length : Int
  default : String
  comment : String
deriving DecidableEq, Repr

/-- `database.DBColumnInfo` (live column metadata). -/
structure DBColumnInfo where
  name : String
  type : String
  nullable : Bool
  length : Int
  default : Option String
deriving DecidableEq, Repr

/- ------------------------------------------------------------------ -/
/- PostgreSQL dialect engine (dbschema/database/postgres.go)           -/
/- ------------------------------------------------------------------ -/

/-- `postgreSQL.prepareColumn`. -/
def pgPrepareColumn (f : SchemaField) : String :=
  "\"" ++ f.dbName ++ "\" " ++ f.dbType
  ++ (if f.length > 0 then "(" ++ toString f.length ++ ")" else "")
  ++ (if f.nullable then " NULL" else " NOT NULL")
  ++ (if f.default.length > 0 then " DEFAULT " ++ f.default else "")
  ++ (if f.comment.length > 0 then " COMMENT \x27" ++ f.comment ++ "\x27" else "")

/-- The column loop of `postgreSQL.prepareAddColumnsStmt`: one
`\nADD COLUMN …` clause per field, a comma after each but the last. -/
def pgAddColumnClauses : List SchemaField → String
| [] => ""
| [f] => "\nADD COLUMN " ++ pgPrepareColumn f
| f :: rest => "\nADD COLUMN " ++ pgPrepareColumn f ++ "," ++ pgAddColumnClauses rest

/-- `postgreSQL.prepareAddColumnsStmt`: a single batched ALTER TABLE. -/
def pgPrepareAddColumnsStmt (tableName : String) (fields : List SchemaField) : String :=
  "ALTER TABLE " ++ tableName ++ pgAddColumnClauses fields ++ ";"

/-- The placeholder loop of `postgreSQL.prepareInsertStmt`: `count`
placeholders `$argNum, $argNum+1, …` separated by `, `. -/
def pgPlaceholderList : Nat → Nat → String
| _, 0 => ""
| n, 1 => "$" ++ toString n
| n, k + 2 => "$" ++ toString n ++ ", " ++ pgPlaceholderList (n + 1) (k + 1)

/-- The column-name loop of `postgreSQL.prepareInsertStmt`: `"f"` per field,
`,` after each but the last. -/
def pgFieldsList : List String → String
| [] => ""
| [f] => "\"" ++ f ++ "\""
| f :: rest => "\"" ++ f ++ "\"," ++ pgFieldsList rest

/-- `postgreSQL.prepareInsertStmt`. -/
def pgPrepareInsertStmt (tableName : String) (fields : List String)
    (argsLen valsLen : Nat) (q : Option Query) (ext : Option InsertExt) :
    Except String String := do
  let head := "INSERT INTO " ++ tableName ++ " (" ++ pgFieldsList fields ++ ")"
  let body ←
    match q with
    | some qq => do
      let s ← prepareQuery qq
      pure ("\n(" ++ s ++ ")")
    | none =>
      match ext with
      | some e =>
        if e.whereNotExists.length > 0 then
          pure ("\nSELECT " ++ pgPlaceholderList (argsLen + 1) valsLen
            ++ " WHERE NOT EXISTS\n(SELECT * FROM " ++ tableName
            ++ " WHERE " ++ e.whereNotExists ++ ")")
        else pure (" VALUES (" ++ pgPlaceholderList 1 valsLen ++ ")")
      | none => pure (" VALUES (" ++ pgPlaceholderList 1 valsLen ++ ")")
  let extPart ←
    match ext with
    | some e => do
      let conflictPart ←
        match e.onConflict with
        | some c =>
          if c.strategy = 0 then
            pure (" ON CONFLICT (" ++ c.object ++ ") DO " ++ "NOTHING")
          else .error "wrong ON CONFLICT strategy"
        | none => pure ""
      let returningPart :=
        match e.returning with
        | some r => "\nRETURNING " ++ r.list
        | none => ""
      pure (conflictPart ++ returningPart)
    | none => pure ""
  .ok (head ++ body ++ extPart ++ ";")

/-- The SET loop of `postgreSQL.prepareUpdateStmt`: `field = $argNum` per
field with increasing `argNum`, `, ` after each but the last. -/
def pgSetValsLoop : List String → Nat → String
| [], _ => ""
| [f], n => f ++ " = $" ++ toString n
| f :: rest, n => f ++ " = $" ++ toString n ++ ", " ++ pgSetValsLoop rest (n + 1)

/-- The sub-query SET loop of `postgreSQL.prepareUpdateStmt`. -/
def pgQueriesLoop : List (String × Query) → Except String String
| [] => .ok ""
| [(fieldName, q)] => do
  let s ← prepareQuery q
  .ok (fieldName ++ " = (" ++ s ++ ")")
| (fieldName, q) :: rest => do
  let s ← prepareQuery q
  let r ← pgQueriesLoop rest
  .ok (fieldName ++ " = (" ++ s ++ ")" ++ ", " ++ r)

/-- `postgreSQL.prepareUpdateStmt`. The variadic `returning ...string`
argument is appended when it has exactly one element; call sites pass either
nothing or one list, modelled by `Option String`. -/
def pgPrepareUpdateStmt (tableName whereS : String) (argsLen : Nat)
    (fields : List String) (queries : List (String × Query))
    (returning : Option String) : Except String String := do
  let setVals := pgSetValsLoop fields (argsLen + 1)
  let setQs ←
    if queries.length > 0 then do
      let s ← pgQueriesLoop queries
      pure (", " ++ s)
    else pure ""
  .ok ("UPDATE " ++ tableName ++ " SET " ++ setVals ++ setQs
    ++ " WHERE " ++ whereS
    ++ (match returning with
        | some r => " RETURNING " ++ r
        | none => "")
    ++ ";")

/-- `postgreSQL.Insert`. The transaction handle only selects between
`tx.…` and `conn.…`, which perform the same observable action. -/
def pgInsert (prepared : PreparedData) (tableName : String)
    (ext : Option InsertExt) (args : List Val) : Except String (List DBAction) := do
  let query ← pgPrepareInsertStmt tableName prepared.dbFields args.length
    prepared.values.length prepared.query ext
  let allArgs := args ++ prepared.values
  match ext with
  | some e =>
    match e.returning with
    | some r =>
      if r.dest = [] then .error "missing destinations for RETURNING clause"
      else .ok [.queryRowScan query allArgs r.dest.length]
    | none => .ok [.exec query allArgs]
  | none => .ok [.exec query allArgs]

/-- `postgreSQL.Update`: WHERE args first, then the prepared values. -/
def pgUpdate (prepared : PreparedData) (tableName whereS : String)
    (ret : Option ReturningDest) (args : List Val) : Except String (List DBAction) :=
  let allArgs := args ++ prepared.values
  match ret with
  | some r =>
    if r.dest = [] then .error "missing destinations for RETURNING clause"
    else do
      let query ← pgPrepareUpdateStmt tableName whereS args.length
        prepared.dbFields prepared.queries (some r.list)
      .ok [.queryRowScan query allArgs r.dest.length]
  | none => do
    let query ← pgPrepareUpdateStmt tableName whereS args.length
      prepared.dbFields prepared.queries none
    .ok [.exec query allArgs]

/-- `postgreSQL.Get` / `mySQL.Get` (both identical here): force LIMIT 1 on
the caller's query, then compile. Returns the mutated query together with
the compile result. -/
def Query.setLimit : Query → Int → Query
| .mk w u sel f j wh g h o _ off, n => .mk w u sel f j wh g h o n off

def dbGet (q : Query) : Query × Except String String :=
  let q1 := q.setLimit 1
  (q1, prepareQuery q1)

/-- `Schema.get` (schema.go), the body of `SelectOne`/`TransactSelectOne`:
apply `SetDefaults` with the schema's table name, then the engine `Get`. -/
def schemaGet (q : Query) (tableName : String) : Query × Except String String :=
  dbGet (q.setDefaults tableName)

/- ------------------------------------------------------------------ -/
/- MySQL dialect engine (mySQL methods)                                -/
/- ------------------------------------------------------------------ -/

/-- `strings.Repeat s n` for the non-negative counts reachable here. -/
def repeatStr (s : String) : Nat → String
| 0 => ""
| n + 1 => s ++ repeatStr s n

/-- `strings.Split(s, ",")`: split at every comma; the empty string yields
one empty chunk, exactly as in Go. (A structural re-implementation of the
standard split, used because every split in the source has the one-byte
separator `,`.) -/
def goSplitCommaAux : List Char → String → List String
| [], acc => [acc]
| c :: cs, acc =>
  if c = ',' then acc :: goSplitCommaAux cs "" else goSplitCommaAux cs (acc.push c)

def goSplitComma (s : String) : List String := goSplitCommaAux s.data ""

/-- `mySQL.prepareColumn`: the DB type may carry a comma-joined `unsigned`
qualifier. -/
def mysqlPrepareColumn (f : SchemaField) : String :=
  let dbType := goSplitComma f.dbType
  "`" ++ f.dbName ++ "` " ++ dbType.headD ""
  ++ (if f.length > 0 then "(" ++ toString f.length ++ ")" else "")
  ++ (if dbType.length = 2 then " " ++ dbType.getD 1 "" else "")
  ++ (if f.nullable then " NULL" else " NOT NULL")
  ++ (if f.default.length > 0 then " DEFAULT " ++ f.default else "")
  ++ (if f.comment.length > 0 then " COMMENT \x27" ++ f.comment ++ "\x27" else "")

/-- The statement loop of `mySQL.prepareAddColumnsStmt`
(dbschema/database/mysql.go): one full `ALTER TABLE … ADD …;` statement per
field. -/
def mysqlAddColumnsLoop (tableName : String) : List SchemaField → String
| [] => ""
| f :: rest =>
  "ALTER TABLE `" ++ tableName ++ "` ADD " ++ mysqlPrepareColumn f ++ ";\n"
  ++ mysqlAddColumnsLoop tableName rest

/-- `mySQL.prepareAddColumnsStmt` (dbschema/database/mysql.go). -/
def mysqlPrepareAddColumnsStmt (tableName : String) (fields : List SchemaField) : String :=
  mysqlAddColumnsLoop tableName fields

/-- The column-name loop of `mySQL.prepareInsertStmt`. -/
def mysqlFieldsList : List String → String
| [] => ""
| [f] => "`" ++ f ++ "`"
| f :: rest => "`" ++ f ++ "`," ++ mysqlFieldsList rest

/-- The error a Go `strings.Repeat` with negative count raises (a runtime
panic in the source, reachable for zero values / zero args). -/
def goNegativeRepeatPanic : String := "panic: strings: negative Repeat count"

/-- `mySQL.prepareInsertStmt`. In the plain-VALUES branch the source emits
`strings.Repeat("?", valsLen-1)` followed by a final `?` — the repeated
placeholders carry NO comma separator (unlike the WHERE-NOT-EXISTS branch,
which repeats `"?, "`). -/
def mysqlPrepareInsertStmt (tableName : String) (fields : List String)
    (argsLen valsLen : Nat) (q : Option Query) (ext : Option InsertExt) :
    Except String String := do
  let head := "INSERT INTO `" ++ tableName ++ "` (" ++ mysqlFieldsList fields ++ ")"
  let body ←
    match q with
    | some qq => do
      let s ← prepareQuery qq
      pure ("\n(" ++ s ++ ")")
    | none =>
      match ext with
      | some e =>
        if e.whereNotExists.length > 0 then
          if argsLen = 0 then .error goNegativeRepeatPanic
          else pure ("\nSELECT " ++ repeatStr "?, " (argsLen - 1) ++ "?"
            ++ " WHERE NOT EXISTS\n(SELECT * FROM `" ++ tableName
            ++ "` WHERE " ++ e.whereNotExists ++ ")")
        else
          if valsLen = 0 then .error goNegativeRepeatPanic
          else pure (" VALUES (" ++ repeatStr "?" (valsLen - 1) ++ "?)")
      | none =>
        if valsLen = 0 then .error goNegativeRepeatPanic
        else pure (" VALUES (" ++ repeatStr "?" (valsLen - 1) ++ "?)")
  match ext with
  | some e =>
    if e.onConflict.isSome then
      .error "MySQL does not support ON CONFLICT clause in INSERT statement"
    else .ok (head ++ body ++ ";")
  | none => .ok (head ++ body ++ ";")

/-- `mySQL.Insert`: prepared values first, then the caller's extra args.
`txGiven` tells whether the caller supplied a transaction handle; without
one the source forces its own transaction around the INSERT and the
`SELECT LAST_INSERT_ID()` when a RETURNING destination is present. -/
def mysqlInsert (txGiven : Bool) (prepared : PreparedData) (tableName : String)
    (ext : Option InsertExt) (args : List Val) : Except String (List DBAction) := do
  let allArgs := prepared.values ++ args
  let query ← mysqlPrepareInsertStmt tableName prepared.dbFields args.length
    prepared.values.length prepared.query ext
  match ext with
  | some e =>
    match e.returning with
    | some r =>
      if r.dest.length > 1 then .error "MySQL supports only last insert ID returning"
      else if txGiven then
        .ok [.exec query allArgs, .selectInto "SELECT LAST_INSERT_ID();" r.dest.length]
      else
        .ok [.txBegin, .exec query allArgs,
          .selectInto "SELECT LAST_INSERT_ID();" r.dest.length, .txCommit]
    | none => .ok [.exec query allArgs]
  | none => .ok [.exec query allArgs]

/-- The SET loop of `mySQL.prepareUpdateStmt`: unindexed `?` placeholders. -/
def mysqlSetValsLoop : List String → String
| [] => ""
| [f] => "`" ++ f ++ "` = ?"
| f :: rest => "`" ++ f ++ "` = ?" ++ ", " ++ mysqlSetValsLoop rest

/-- The sub-query SET loop of `mySQL.prepareUpdateStmt`. -/
def mysqlQueriesLoop : List (String × Query) → Except String String
| [] => .ok ""
| [(fieldName, q)] => do
  let s ← prepareQuery q
  .ok ("`" ++ fieldName ++ "` = (" ++ s ++ ")")
| (fieldName, q) :: rest => do
  let s ← prepareQuery q
  let r ← mysqlQueriesLoop rest
  .ok ("`" ++ fieldName ++ "` = (" ++ s ++ ")" ++ ", " ++ r)

/-- `mySQL.prepareUpdateStmt` (its `argsLen` parameter is unused by the
source). -/
def mysqlPrepareUpdateStmt (tableName whereS : String) (argsLen : Nat)
    (fields : List String) (queries : List (String × Query)) :
    Except String String := do
  let _ := argsLen
  let setQs ←
    if queries.length > 0 then do
      let s ← mysqlQueriesLoop queries
      pure (", " ++ s)
    else pure ""
  .ok ("UPDATE `" ++ tableName ++ "` SET " ++ mysqlSetValsLoop fields ++ setQs
    ++ " WHERE " ++ whereS ++ ";")

/-- `mySQL.Update`: rejects every RETURNING request before doing anything. -/
def mysqlUpdate (prepared : PreparedData) (tableName whereS : String)
    (ret : Option ReturningDest) (args : List Val) : Except String (List DBAction) :=
  match ret with
  | some _ => .error "MySQL does not support RETURNING clause in UPDATE statement"
  | none => do
    let allArgs := prepared.values ++ args
    let query ← mysqlPrepareUpdateStmt tableName whereS args.length
      prepared.dbFields prepared.queries
    .ok [.exec query allArgs]

/-- `mySQL.prepareDeleteStmt`. -/
def mysqlPrepareDeleteStmt (tableName whereS : String) : String :=
  "DELETE FROM `" ++ tableName ++ "` WHERE " ++ whereS ++ ";"

/-- `mySQL.Delete`: rejects every RETURNING request before doing anything. -/
def mysqlDelete (tableName whereS : String) (ret : Option ReturningDest)
    (args : List Val) : Except String (List DBAction) :=
  match ret with
  | some _ => .error "MySQL does not support RETURNING clause in DELETE statement"
  | none => .ok [.exec (mysqlPrepareDeleteStmt tableName whereS) args]

/- ------------------------------------------------------------------ -/
/- Field descriptor extractor and migration diff (dbschema package)    -/
/- ------------------------------------------------------------------ -/

/-- The reflected kind of a model field, as tested by the source
(`reflect.Ptr`, `reflect.Map`, `reflect.Interface`, anything else). -/
inductive GoKind where
| ptr
| mapK
| iface
| other
deriving DecidableEq, Repr

/-- One field of the caller's model struct: its name, its struct tags and
its reflected kind — everything `prepareSchemaFields` reads. -/
structure ModelField where
  name : String
  dbTag : String
  typeTag : String
  lenTag : String
  defTag : String
  commentTag : String
  keyTag : String
  kind : GoKind
deriving DecidableEq, Repr

/-- Digit-run parser backing `goAtoi`: `none` as soon as a non-digit
appears. -/
def goDigitsAux : List Char → Nat → Option Nat
| [], acc => some acc
| c :: cs, acc =>
  if c.isDigit then goDigitsAux cs (acc * 10 + (c.toNat - 48)) else none

def goDigits : List Char → Option Nat
| [] => none
| c :: cs => goDigitsAux (c :: cs) 0

/-- `strconv.Atoi` as used with a discarded error: the parsed value, `0` on
parse failure (empty string, stray characters, bare sign). -/
def goAtoi (s : String) : Int :=
  match s.data with
  | '-' :: ds => -(((goDigits ds).getD 0 : Nat) : Int)
  | '+' :: ds => (((goDigits ds).getD 0 : Nat) : Int)
  | ds => (((goDigits ds).getD 0 : Nat) : Int)

/-- `prepareSchemaFields` from the dbschema package (the revision that
parses the `nomigrate` suffix and treats interface kinds as nullable):
walks the model's fields in declaration order and builds the descriptor
list, or fails. -/
def prepareSchemaFields : List ModelField → Except String (List SchemaField)
| [] => .ok []
| f :: rest =>
  if f.dbTag.length = 0 ∨ f.dbTag = "-" then prepareSchemaFields rest
  else
    let dbNames := goSplitComma f.dbTag
    let migratable := if dbNames.length = 2 then dbNames.getD 1 "" != "nomigrate" else true
    if f.typeTag.length = 0 then
      .error ("type for field \x27" ++ f.dbTag ++ "\x27 (" ++ f.name ++ ") is missing")
    else
      let field : SchemaField :=
        { name := f.name
          migratable := migratable
          dbName := dbNames.headD ""
          dbType := f.typeTag
          nullable := f.kind == .ptr || f.kind == .mapK || f.kind == .iface
          isPrimaryKey := f.keyTag.length != 0 && (goSplitComma f.keyTag).any (· == "pk")
          length := goAtoi f.lenTag
          default := f.defTag
          comment := f.commentTag }
      if field.isPrimaryKey && field.nullable then
        .error ("primary key \x27" ++ f.dbTag ++ "\x27 (" ++ f.name ++ ") is nullable")
      else do
        let fs ← prepareSchemaFields rest
        .ok (field :: fs)

/-- `getNewSchemaFields` from the dbschema package: the migration diff.
Note the early return: when the declared-field count equals the
live-column count the result is empty without comparing any name. -/
def getNewSchemaFields (fields : List SchemaField) (colInfo : List DBColumnInfo) :
    List SchemaField :=
  if fields.length = colInfo.length then []
  else fields.filter (fun f => !(colInfo.any (fun info => info.name == f.dbName)))

/- ------------------------------------------------------------------ -/
/- Spec-side helpers used by the theorems                              -/
/- ------------------------------------------------------------------ -/

/-- Join a list of chunks with a separator (empty for the empty list). -/
def joinSep (sep : String) : List String → String
| [] => ""
| [x] => x
| x :: xs => x ++ sep ++ joinSep sep xs

/-- The DBColumnInfo row that describes a schema field once it has been
added to the live table (only the name takes part in the diff). -/
def liveColumnOf (f : SchemaField) : DBColumnInfo :=
  { name := f.dbName, type := f.dbType, nullable := f.nullable
    length := f.length, default := none }

/- Visit-order validity of the FROM targets the compiler reaches:
a string target is fine, an aliased sub-query needs a non-empty alias and
recursively valid FROM targets, anything else (including a nil FROM) is
invalid. Mirrors exactly what `prepareSelectStatement` visits. -/
mutual

/-- FROM-target validity (see the comment above this mutual block). -/
def fromVisitOk : Option FromClause → Bool
| some (.table _) => true
| some (.sub (.mk a q)) => a.length != 0 && queryFromsOk q
| some .invalid => false
| none => false

/-- FROM-target validity of one query node (see the mutual block). -/
def queryFromsOk : Query → Bool
| .mk _ _ _ f _ _ _ _ _ _ _ => fromVisitOk f

end

/-- Validity of a WITH-entry list: every entry has a non-empty alias and a
query whose visited FROM targets are valid. -/
def withEntriesOk : List AliasedQuery → Bool
| [] => true
| .mk a q :: rest => a.length != 0 && queryFromsOk q && withEntriesOk rest

/-- Validity along a UNION chain: every linked query's visited FROM targets
are valid. -/
def unionChainOk : UnionClause → Bool
| .mk _ q@(.mk _ u _ _ _ _ _ _ _ _ _) =>
  queryFromsOk q &&
    (match u with
     | some uc => unionChainOk uc
     | none => true)

/-- Everything `prepareQuery` validates on its visit: the top-level WITH
entries, the top-level query's FROM recursion and the UNION chain.
WITH lists and UNION links of nested sub-queries are NOT visited by the
compiler, and are therefore absent here as well. -/
def compileVisitOk (q : Query) : Bool :=
  withEntriesOk q.withL && queryFromsOk q &&
    (match q.union with
     | some uc => unionChainOk uc
     | none => true)

/- Shared concrete examples (used by several closed theorems). -/

/-- Example model field: `A` mapped to column `a`, primary key. -/
def exModelA : ModelField :=
  { name := "A", dbTag := "a", typeTag := "int", lenTag := "", defTag := ""
    commentTag := "", keyTag := "pk", kind := .other }

/-- Example model field: `B` mapped to column `b` with the `nomigrate`
marker. -/
def exModelB : ModelField :=
  { name := "B", dbTag := "b,nomigrate", typeTag := "text", lenTag := ""
    defTag := "", commentTag := "", keyTag := "", kind := .other }

/-- The descriptor `prepareSchemaFields` derives from `exModelA`. -/
def exFieldA : SchemaField :=
  { name := "A", migratable := true, dbName := "a", dbType := "int"
    nullable := false, isPrimaryKey := true, length := 0, default := ""
    comment := "" }

/-- The descriptor `prepareSchemaFields` derives from `exModelB`:
the mapped name `b` is kept and `migratable` is false. -/
def exFieldB : SchemaField :=
  { name := "B", migratable := false, dbName := "b", dbType := "text"
    nullable := false, isPrimaryKey := false, length := 0, default := ""
    comment := "" }

/-- A live column named `a`. -/
def exColA : DBColumnInfo :=
  { name := "a", type := "int4", nullable := false, length := 0, default := none }

/-- A live column named `c`. -/
def exColC : DBColumnInfo :=
  { name := "c", type := "int4", nullable := false, length := 0, default := none }

/-- Concatenate a list of strings. -/
def concatAll : List String → String
| [] => ""
| x :: xs => x ++ concatAll xs

lemma except_bind_ok {α β : Type} {x : Except String α} {f : α → Except String β}
    {b : β} (h : x >>= f = .ok b) : ∃ a, x = .ok a ∧ f a = .ok b := by
  cases x with
  | error e => simp [Bind.bind, Except.bind] at h
  | ok a => exact ⟨a, rfl, by simpa [Bind.bind, Except.bind] using h⟩

lemma except_map_ok {α β : Type} {g : α → β} {x : Except String α} {b : β}
    (h : Except.map g x = .ok b) : ∃ a, x = .ok a ∧ g a = b := by
  cases x with
  | error e => simp [Except.map] at h
  | ok a => exact ⟨a, rfl, by simpa [Except.map] using h⟩

lemma joinSep_cons_ne (sep a : String) (l : List String) (h : l ≠ []) :
    joinSep sep (a :: l) = a ++ sep ++ joinSep sep l := by
  cases l with
  | nil => exact absurd rfl h
  | cons b t => rfl

lemma pgSetValsLoop_closed (fields : List String) (k : Nat) :
    pgSetValsLoop fields (k + 1)
      = joinSep ", " ((List.range fields.length).map
          (fun i => fields.getD i "" ++ " = $" ++ toString (k + 1 + i))) := by
  induction fields generalizing k with
  | nil => rfl
  | cons f rest ih =>
    cases rest with
    | nil => simp [pgSetValsLoop, joinSep, List.range_succ]
    | cons r rs =>
      have hmap : (List.range (f :: r :: rs).length).map
          (fun i => (f :: r :: rs).getD i "" ++ " = $" ++ toString (k + 1 + i))
          = (f ++ " = $" ++ toString (k + 1))
            :: (List.range (r :: rs).length).map
              (fun i => (r :: rs).getD i "" ++ " = $" ++ toString (k + 1 + 1 + i)) := by
        rw [List.length_cons, List.range_succ_eq_map, List.map_cons, List.map_map]
        refine congrArg₂ _ (by simp) (List.map_congr_left ?_)
        intro i _
        simp only [Function.comp_apply, Nat.succ_eq_add_one, List.getD_cons_succ]
        have : k + 1 + (i + 1) = k + 1 + 1 + i := by omega
        rw [this]
      rw [hmap, joinSep_cons_ne _ _ _ (by simp), ← ih (k + 1)]
      rfl

lemma pgAddColumnClauses_closed (fields : List SchemaField) :
    pgAddColumnClauses fields
      = joinSep "," (fields.map (fun f => "\nADD COLUMN " ++ pgPrepareColumn f)) := by
  induction fields with
  | nil => rfl
  | cons f rest ih =>
    cases rest with
    | nil => rfl
    | cons r rs =>
      rw [List.map_cons, joinSep_cons_ne _ _ _ (by simp), ← ih]
      rfl

lemma mysqlAddColumnsLoop_closed (tableName : String) (fields : List SchemaField) :
    mysqlAddColumnsLoop tableName fields
      = concatAll (fields.map
          (fun f => "ALTER TABLE `" ++ tableName ++ "` ADD " ++ mysqlPrepareColumn f ++ ";\n")) := by
  induction fields with
  | nil => rfl
  | cons f rest ih => rw [List.map_cons]; simp only [concatAll, ← ih]; rfl

/- ------------------------------------------------------------------ -/
/- Claim theorems                                                      -/
/- ------------------------------------------------------------------ -/

/-- C1. For a PostgreSQL UPDATE with `k` WHERE args and `m` prepared field
values (no sub-query SET entries, no RETURNING), the generated statement
numbers the SET placeholders `$(k+1) … $(k+m)` in field order, and the
argument list handed to the executor is the WHERE args followed by the
prepared values, so position `k+i` of that list (0-based) holds the `i`-th
prepared value — placeholder `$(k+i)` (1-based) binds exactly the `i`-th
value. -/
theorem csxlib_C1_update_placeholders (tableName whereS : String)
    (args values : List Val) (fields : List String)
    (h : fields.length = values.length) :
    pgUpdate ⟨fields, values, [], none⟩ tableName whereS none args
      = .ok [.exec
          ("UPDATE " ++ tableName ++ " SET "
            ++ joinSep ", " ((List.range values.length).map
                (fun i => fields.getD i "" ++ " = $" ++ toString (args.length + 1 + i)))
            ++ " WHERE " ++ whereS ++ ";")
          (args ++ values)]
    ∧ (args ++ values).take args.length = args
    ∧ (args ++ values).drop args.length = values
    ∧ ∀ i, i < values.length →
        (args ++ values).getD (args.length + i) 0 = values.getD i 0 := by
  refine ⟨?_, by simp, by simp, ?_⟩
  · rw [← h, ← pgSetValsLoop_closed fields args.length]
    simp only [pgUpdate, pgPrepareUpdateStmt]
    simp [String.append_empty]
    rfl
  · intro i hi
    rw [List.getD_append_right args values 0 (args.length + i) (by omega),
      Nat.add_sub_cancel_left]

theorem csxlib_C1_witness :
    (["a", "b"] : List String).length = ([10, 20] : List Val).length
    ∧ (pgUpdate ⟨["a", "b"], [10, 20], [], none⟩ "t" "id = $1" none [7]
        = .ok [.exec
            ("UPDATE " ++ "t" ++ " SET "
              ++ joinSep ", " ((List.range ([10, 20] : List Val).length).map
                  (fun i => (["a", "b"] : List String).getD i "" ++ " = $"
                    ++ toString (([7] : List Val).length + 1 + i)))
              ++ " WHERE " ++ "id = $1" ++ ";")
            ([7] ++ [10, 20])]
        ∧ (([7] : List Val) ++ [10, 20]).take ([7] : List Val).length = [7]
        ∧ (([7] : List Val) ++ [10, 20]).drop ([7] : List Val).length = [10, 20]
        ∧ ∀ i, i < ([10, 20] : List Val).length →
            (([7] : List Val) ++ [10, 20]).getD (([7] : List Val).length + i) 0
              = ([10, 20] : List Val).getD i 0) :=
  ⟨rfl, csxlib_C1_update_placeholders "t" "id = $1" [7] [10, 20] ["a", "b"] rfl⟩

/-- C9. For a non-empty new-field list, PostgreSQL batches one
`ADD COLUMN` clause per field into a single ALTER TABLE statement, while
MySQL emits one full `ALTER TABLE … ADD …;` statement per column. -/
theorem csxlib_C9_alter_batching (tableName : String) (fields : List SchemaField)
    (_h : fields ≠ []) :
    pgPrepareAddColumnsStmt tableName fields
      = "ALTER TABLE " ++ tableName
        ++ joinSep "," (fields.map (fun f => "\nADD COLUMN " ++ pgPrepareColumn f))
        ++ ";"
    ∧ mysqlPrepareAddColumnsStmt tableName fields
      = concatAll (fields.map
          (fun f => "ALTER TABLE `" ++ tableName ++ "` ADD " ++ mysqlPrepareColumn f ++ ";\n")) := by
  refine ⟨?_, mysqlAddColumnsLoop_closed tableName fields⟩
  rw [pgPrepareAddColumnsStmt, pgAddColumnClauses_closed]

theorem csxlib_C9_witness :
    ([exFieldA] : List SchemaField) ≠ []
    ∧ (pgPrepareAddColumnsStmt "t" [exFieldA]
        = "ALTER TABLE " ++ "t"
          ++ joinSep "," ([exFieldA].map (fun f => "\nADD COLUMN " ++ pgPrepareColumn f))
          ++ ";"
      ∧ mysqlPrepareAddColumnsStmt "t" [exFieldA]
        = concatAll ([exFieldA].map
            (fun f => "ALTER TABLE `" ++ "t" ++ "` ADD " ++ mysqlPrepareColumn f ++ ";\n"))) :=
  ⟨by decide, csxlib_C9_alter_batching "t" [exFieldA] (by decide)⟩

/-- C2. The claim says a query with a Union link compiles to SQL containing
`UNION` (with `ALL` when flagged) between the member SELECTs. The code
violates this: `prepareUnionClause` writes the `UNION [ALL]` text into a
local builder it never flushes, so the chain `A UNION ALL B UNION C`
compiles to the three SELECTs concatenated with no `UNION` keyword at all.
Evaluated here at that very chain. -/
theorem csxlib_C2_union_keyword_dropped :
    prepareQuery
      (.mk [] (some (.mk true
        (.mk [] (some (.mk false
          (.mk [] none "3" (some (.table "c")) "" "" "" "" "" 0 0)))
          "2" (some (.table "b")) "" "" "" "" "" 0 0)))
        "1" (some (.table "a")) "" "" "" "" "" 0 0)
      = .ok "\nSELECT 1\nFROM a\nSELECT 2\nFROM b\nSELECT 3\nFROM c"
    ∧ ¬ ("UNION".toList <:+:
        ("\nSELECT 1\nFROM a\nSELECT 2\nFROM b\nSELECT 3\nFROM c").toList) :=
  ⟨rfl, by decide⟩

/-- C4. The claim says a MySQL INSERT from `m` bound values lists `m`
unindexed `?` placeholders SEPARATED BY COMMAS, the executor receiving the
prepared values followed by the extra args. The argument order is as
claimed, but the placeholders carry no separator at all: the source emits
`strings.Repeat("?", m-1)` plus a final `?`, producing `VALUES (??)` for
`m = 2` — no `, ` occurs anywhere in the generated statement. -/
theorem csxlib_C4_values_placeholders_not_separated :
    mysqlPrepareInsertStmt "t" ["a", "b"] 1 2 none none
      = .ok "INSERT INTO `t` (`a`,`b`) VALUES (??);"
    ∧ mysqlInsert false ⟨["a", "b"], [10, 20], [], none⟩ "t" none [7]
      = .ok [.exec "INSERT INTO `t` (`a`,`b`) VALUES (??);" [10, 20, 7]]
    ∧ ¬ (", ".toList <:+: "INSERT INTO `t` (`a`,`b`) VALUES (??);".toList) :=
  ⟨rfl, rfl, by decide⟩

/-- C3 counterexample. With two declared fields `a`, `b` and two live
columns `a`, `c` the counts are equal, so the early return yields the empty
diff although the set difference (the filter the claim describes) is
`[exFieldB]` — the claim's "even when the counts are equal" case fails. -/
theorem csxlib_C3_diff_counterexample :
    getNewSchemaFields [exFieldA, exFieldB] [exColA, exColC] = []
    ∧ [exFieldA, exFieldB].filter
        (fun f => !([exColA, exColC].any (fun info => info.name == f.dbName)))
      = [exFieldB] :=
  ⟨rfl, rfl⟩

/-- C5 counterexample. A MySQL INSERT whose extension requests both an
ON CONFLICT clause and a RETURNING with two destinations fails with the
ON CONFLICT error (raised while preparing the statement), not with the
unsupported-returning error the claim promises for every such call. -/
theorem csxlib_C5_returning_counterexample :
    mysqlInsert false ⟨["a"], [5], [], none⟩ "t"
      (some ⟨"", some ⟨"id", 0⟩, some ⟨"id, x", [0, 1]⟩⟩) []
      = .error "MySQL does not support ON CONFLICT clause in INSERT statement"
    ∧ "MySQL does not support ON CONFLICT clause in INSERT statement"
      ≠ "MySQL supports only last insert ID returning" :=
  ⟨rfl, by decide⟩

lemma except_ok_bind {α β : Type} (a : α) (f : α → Except String β) :
    (Except.ok a >>= f) = f a := rfl

/-- C5 (amended). Whenever the INSERT statement itself prepares
successfully (in particular no ON CONFLICT clause is requested — that
fails first with a different error, `csxlib_C5_returning_counterexample`):
MySQL Insert with two or more RETURNING destinations fails with the
unsupported-returning error; MySQL Update and Delete reject every
RETURNING request outright; MySQL Insert with exactly one destination runs
a forced transaction wrapping the INSERT and `SELECT LAST_INSERT_ID()`;
PostgreSQL Insert with multiple destinations succeeds, scanning the
RETURNING row into all supplied destinations. -/
theorem csxlib_C5_returning_support :
    (∀ (prepared : PreparedData) (tableName : String) (e : InsertExt)
        (r : ReturningDest) (args : List Val) (txGiven : Bool) (s : String),
      e.returning = some r → 2 ≤ r.dest.length →
      mysqlPrepareInsertStmt tableName prepared.dbFields args.length
        prepared.values.length prepared.query (some e) = .ok s →
      mysqlInsert txGiven prepared tableName (some e) args
        = .error "MySQL supports only last insert ID returning")
    ∧ (∀ (prepared : PreparedData) (tableName whereS : String)
        (r : ReturningDest) (args : List Val),
      mysqlUpdate prepared tableName whereS (some r) args
        = .error "MySQL does not support RETURNING clause in UPDATE statement")
    ∧ (∀ (tableName whereS : String) (r : ReturningDest) (args : List Val),
      mysqlDelete tableName whereS (some r) args
        = .error "MySQL does not support RETURNING clause in DELETE statement")
    ∧ (∀ (prepared : PreparedData) (tableName : String) (e : InsertExt)
        (r : ReturningDest) (d : Val) (args : List Val) (s : String),
      e.returning = some r → r.dest = [d] →
      mysqlPrepareInsertStmt tableName prepared.dbFields args.length
        prepared.values.length prepared.query (some e) = .ok s →
      mysqlInsert false prepared tableName (some e) args
        = .ok [.txBegin, .exec s (prepared.values ++ args),
            .selectInto "SELECT LAST_INSERT_ID();" 1, .txCommit])
    ∧ (∀ (prepared : PreparedData) (tableName : String) (e : InsertExt)
        (r : ReturningDest) (args : List Val) (s : String),
      e.returning = some r → 2 ≤ r.dest.length →
      pgPrepareInsertStmt tableName prepared.dbFields args.length
        prepared.values.length prepared.query (some e) = .ok s →
      pgInsert prepared tableName (some e) args
        = .ok [.queryRowScan s (args ++ prepared.values) r.dest.length]) := by
  refine ⟨?_, fun _ _ _ _ _ => rfl, fun _ _ _ _ => rfl, ?_, ?_⟩
  · intro prepared tableName e r args txGiven s hret hlen hprep
    simp only [mysqlInsert, hprep, except_ok_bind, hret]
    rw [if_pos (by omega : r.dest.length > 1)]
  · intro prepared tableName e r d args s hret hdest hprep
    simp only [mysqlInsert, hprep, except_ok_bind, hret, hdest]
    rfl
  · intro prepared tableName e r args s hret hlen hprep
    simp only [pgInsert, hprep, except_ok_bind, hret]
    rw [if_neg (by
      intro hnil
      rw [hnil] at hlen
      simp at hlen)]

theorem csxlib_C5_witness :
    mysqlInsert false ⟨["a"], [5], [], none⟩ "t"
      (some ⟨"", none, some ⟨"id, x", [0, 1]⟩⟩) []
      = .error "MySQL supports only last insert ID returning"
    ∧ mysqlUpdate ⟨["a"], [5], [], none⟩ "t" "id = ?" (some ⟨"id", [0]⟩) [7]
      = .error "MySQL does not support RETURNING clause in UPDATE statement"
    ∧ mysqlDelete "t" "id = ?" (some ⟨"id", [0]⟩) [7]
      = .error "MySQL does not support RETURNING clause in DELETE statement"
    ∧ mysqlInsert false ⟨["a"], [5], [], none⟩ "t"
      (some ⟨"", none, some ⟨"id", [0]⟩⟩) []
      = .ok [.txBegin, .exec "INSERT INTO `t` (`a`) VALUES (?);" ([5] ++ []),
          .selectInto "SELECT LAST_INSERT_ID();" 1, .txCommit]
    ∧ pgInsert ⟨["a"], [5], [], none⟩ "t"
      (some ⟨"", none, some ⟨"id, x", [0, 1]⟩⟩) []
      = .ok [.queryRowScan
          "INSERT INTO t (\"a\") VALUES ($1)\nRETURNING id, x;"
          ([] ++ [5]) 2] :=
  ⟨csxlib_C5_returning_support.1 ⟨["a"], [5], [], none⟩ "t"
      ⟨"", none, some ⟨"id, x", [0, 1]⟩⟩ ⟨"id, x", [0, 1]⟩ [] false
      "INSERT INTO `t` (`a`) VALUES (?);" rfl (by decide) rfl,
    csxlib_C5_returning_support.2.1 ⟨["a"], [5], [], none⟩ "t" "id = ?"
      ⟨"id", [0]⟩ [7],
    csxlib_C5_returning_support.2.2.1 "t" "id = ?" ⟨"id", [0]⟩ [7],
    csxlib_C5_returning_support.2.2.2.1 ⟨["a"], [5], [], none⟩ "t"
      ⟨"", none, some ⟨"id", [0]⟩⟩ ⟨"id", [0]⟩ 0 []
      "INSERT INTO `t` (`a`) VALUES (?);" rfl rfl rfl,
    csxlib_C5_returning_support.2.2.2.2 ⟨["a"], [5], [], none⟩ "t"
      ⟨"", none, some ⟨"id, x", [0, 1]⟩⟩ ⟨"id, x", [0, 1]⟩ []
      "INSERT INTO t (\"a\") VALUES ($1)\nRETURNING id, x;" rfl (by decide) rfl⟩

/-- C6. The claim says a `name,nomigrate` field keeps its mapped column
name (true: the descriptor below carries `dbName = b`, `migratable = false`)
but is never passed to AlterTable by the migration pass. The code violates
the second half: `getNewSchemaFields` never consults `migratable`, so with
live columns `[a]` the non-migratable field `b` IS returned as a new field
(and `migrateSchema` hands exactly this list to `AlterTable`). -/
theorem csxlib_C6_nomigrate_in_alter :
    prepareSchemaFields [exModelA, exModelB] = .ok [exFieldA, exFieldB]
    ∧ exFieldB.migratable = false
    ∧ getNewSchemaFields [exFieldA, exFieldB] [exColA] = [exFieldB] :=
  ⟨rfl, rfl, rfl⟩

/-- C3 (amended). When the declared-field count differs from the
live-column count, the migration diff is exactly the pure set difference the
claim describes — a field is returned iff it is declared and its DB name
occurs in no live column, with declared order preserved (the result is a
sublist of the declared fields). When the counts are EQUAL the code
short-circuits to the empty list without comparing any name
(`csxlib_C3_diff_counterexample`). Whatever branch ran, adding the
returned fields to the live columns makes a second diff empty. -/
theorem csxlib_C3_diff_set_difference (fields : List SchemaField)
    (colInfo : List DBColumnInfo) :
    (fields.length ≠ colInfo.length →
      (∀ f, f ∈ getNewSchemaFields fields colInfo
        ↔ f ∈ fields ∧ ∀ c ∈ colInfo, c.name ≠ f.dbName)
      ∧ (getNewSchemaFields fields colInfo).Sublist fields)
    ∧ (fields.length = colInfo.length → getNewSchemaFields fields colInfo = [])
    ∧ getNewSchemaFields fields
        (colInfo ++ (getNewSchemaFields fields colInfo).map liveColumnOf) = [] := by
  refine ⟨?_, ?_, ?_⟩
  · intro hne
    rw [getNewSchemaFields, if_neg hne]
    constructor
    · intro f
      simp [List.mem_filter, List.any_eq_true]
    · exact List.filter_sublist fields
  · intro heq
    rw [getNewSchemaFields, if_pos heq]
  · by_cases heq : fields.length = colInfo.length
    · rw [show getNewSchemaFields fields colInfo = [] from
          by rw [getNewSchemaFields, if_pos heq],
        List.map_nil, List.append_nil, getNewSchemaFields, if_pos heq]
    · rw [show getNewSchemaFields fields colInfo
          = fields.filter (fun f => !(colInfo.any (fun info => info.name == f.dbName)))
        from by rw [getNewSchemaFields, if_neg heq]]
      rw [getNewSchemaFields]
      by_cases hlen : fields.length
          = (colInfo ++ (fields.filter
              (fun f => !(colInfo.any (fun info => info.name == f.dbName)))).map
                liveColumnOf).length
      · rw [if_pos hlen]
      · rw [if_neg hlen]
        rw [List.filter_eq_nil_iff]
        intro f hf
        simp only [Bool.not_eq_true', Bool.not_eq_false, List.any_eq_true]
        by_cases hmatch : colInfo.any (fun info => info.name == f.dbName)
        · obtain ⟨c, hc, hcn⟩ := List.any_eq_true.mp hmatch
          exact ⟨c, List.mem_append_left _ hc, hcn⟩
        · refine ⟨liveColumnOf f, List.mem_append_right _ ?_, by simp [liveColumnOf]⟩
          exact List.mem_map_of_mem liveColumnOf
            (List.mem_filter.mpr ⟨hf, by simp [hmatch]⟩)

theorem csxlib_C3_witness :
    ([exFieldB] : List SchemaField).length ≠ ([] : List DBColumnInfo).length
    ∧ (exFieldB ∈ getNewSchemaFields [exFieldB] [])
    ∧ getNewSchemaFields [exFieldB]
        ([] ++ (getNewSchemaFields [exFieldB] []).map liveColumnOf) = [] := by
  have h := csxlib_C3_diff_set_difference [exFieldB] []
  refine ⟨by decide, ?_, h.2.2⟩
  exact ((h.1 (by decide)).1 exFieldB).mpr ⟨by simp, by simp⟩

/-- C7 (amended). A model field that carries the primary-key marker and a
structurally nullable kind always fails descriptor construction —
PROVIDED it is mapped at all: a field whose `db` tag is empty or the
ignore marker `-` is skipped before any validation
(`csxlib_C7_pk_counterexample`), which is the one exception to the claim's
"regardless of the field's other annotations". The failure may also
surface as the missing-type error when the same field lacks a type
annotation; construction fails either way. -/
theorem csxlib_C7_nullable_pk_fails (modelFields : List ModelField)
    (f : ModelField) (hmem : f ∈ modelFields)
    (hmapped : ¬ (f.dbTag.length = 0 ∨ f.dbTag = "-"))
    (hpk : (f.keyTag.length != 0 && (goSplitComma f.keyTag).any (· == "pk")) = true)
    (hnull : (f.kind == .ptr || f.kind == .mapK || f.kind == .iface) = true) :
    ∃ e, prepareSchemaFields modelFields = .error e := by
  induction modelFields with
  | nil => cases hmem
  | cons g rest ih =>
    rcases List.mem_cons.mp hmem with hfg | hfr
    · subst hfg
      rw [prepareSchemaFields, if_neg hmapped]
      by_cases htype : f.typeTag.length = 0
      · rw [if_pos htype]
        exact ⟨_, rfl⟩
      · rw [if_neg htype, if_pos (by simp only [hpk, hnull, Bool.and_self])]
        exact ⟨_, rfl⟩
    · have hrest := ih hfr
      rw [prepareSchemaFields]
      by_cases hskip : (g.dbTag.length = 0 ∨ g.dbTag = "-")
      · rwa [if_pos hskip]
      · rw [if_neg hskip]
        by_cases htype : g.typeTag.length = 0
        · rw [if_pos htype]
          exact ⟨_, rfl⟩
        · rw [if_neg htype]
          by_cases hbad : (((g.keyTag.length != 0
                && (goSplitComma g.keyTag).any (· == "pk"))
              && (g.kind == .ptr || g.kind == .mapK || g.kind == .iface)) = true)
          · rw [if_pos hbad]
            exact ⟨_, rfl⟩
          · rw [if_neg hbad]
            obtain ⟨e, he⟩ := hrest
            exact ⟨e, by rw [he]; rfl⟩

theorem csxlib_C7_witness :
    ∃ e, prepareSchemaFields
      [{ name := "P", dbTag := "p", typeTag := "int", lenTag := "", defTag := ""
         commentTag := "", keyTag := "uk,pk", kind := .iface }] = .error e :=
  csxlib_C7_nullable_pk_fails _ _ (List.mem_singleton.mpr rfl)
    (by decide) (by decide) (by decide)

/-- C7 counterexample. A field annotated `db:"-"` (the ignore marker) is
skipped before any validation, so a model whose only field is marked `pk`
and has pointer kind still constructs successfully — the claim's
"regardless of the field's other annotations" fails for the ignore marker. -/
theorem csxlib_C7_pk_counterexample :
    prepareSchemaFields
      [{ name := "S", dbTag := "-", typeTag := "int", lenTag := "", defTag := ""
         commentTag := "", keyTag := "pk", kind := .ptr }] = .ok [] :=
  rfl

theorem prepareSelectStatement_ok_froms :
    ∀ (q : Query) (s : String), prepareSelectStatement q = .ok s →
      queryFromsOk q = true
| .mk _ _ _ (some (.table _)) _ _ _ _ _ _ _, _, _ => rfl
| .mk w u sel (some (.sub (.mk a q'))) j wh g hv o l off, s, h => by
  simp only [prepareSelectStatement] at h
  obtain ⟨fp, hfp, _⟩ := except_bind_ok h
  rw [prepareFromClause] at hfp
  by_cases ha : a.length = 0
  · rw [if_pos ha] at hfp
    exact absurd hfp (by simp)
  · rw [if_neg ha] at hfp
    obtain ⟨s', hs', _⟩ := except_bind_ok hfp
    have hq' := prepareSelectStatement_ok_froms q' s' hs'
    simp [queryFromsOk, fromVisitOk, hq', ha]
| .mk _ _ _ (some .invalid) _ _ _ _ _ _ _, s, h => by
  simp only [prepareSelectStatement] at h
  obtain ⟨fp, hfp, _⟩ := except_bind_ok h
  exact absurd hfp (by simp [prepareFromClause])
| .mk _ _ _ none _ _ _ _ _ _ _, s, h => by
  simp only [prepareSelectStatement] at h
  obtain ⟨fp, hfp, _⟩ := except_bind_ok h
  exact absurd hfp (by simp [prepareFromClause])

theorem prepareWithList_ok_entries (l : List AliasedQuery) (s : String)
    (h : prepareWithList l = .ok s) : withEntriesOk l = true := by
  induction l generalizing s with
  | nil => rfl
  | cons entry rest ih =>
    obtain ⟨a, q⟩ := entry
    cases rest with
    | nil =>
      rw [prepareWithList] at h
      by_cases ha : a.length = 0
      · rw [if_pos ha] at h
        exact absurd h (by simp)
      · rw [if_neg ha] at h
        obtain ⟨s', hs', _⟩ := except_bind_ok h
        simp [withEntriesOk, ha, prepareSelectStatement_ok_froms q s' hs']
    | cons r rs =>
      rw [prepareWithList] at h
      case x_1 => simp
      by_cases ha : a.length = 0
      · rw [if_pos ha] at h
        exact absurd h (by simp)
      · rw [if_neg ha] at h
        obtain ⟨s', hs', h⟩ := except_bind_ok h
        obtain ⟨s'', hs'', _⟩ := except_bind_ok h
        simp [withEntriesOk, ha, prepareSelectStatement_ok_froms q s' hs',
          ih s'' hs'']

theorem prepareUnionClause_ok_chain :
    ∀ (uc : UnionClause) (s : String), prepareUnionClause uc = .ok s →
      unionChainOk uc = true
| .mk allFlag (.mk w u sel f j wh g hv o l off), s, h => by
  simp only [prepareUnionClause] at h
  obtain ⟨s', hs', h2⟩ := except_bind_ok h
  have h1 := prepareSelectStatement_ok_froms _ _ hs'
  cases u with
  | none => simp [unionChainOk, h1]
  | some uc' =>
    obtain ⟨r, hr, _⟩ := except_bind_ok h2
    have := prepareUnionClause_ok_chain uc' r hr
    simp [unionChainOk, h1, this]

/-- C8 (amended). If some WITH entry OF THE TOP-LEVEL QUERY has an empty
alias, or some FROM-target reachable through the compiler's FROM/UNION
recursion is an empty-aliased sub-query (or is neither a string nor an
aliased sub-query, a nil FROM included), then compilation returns an error
and produces no SQL string (`compileVisitOk` is precisely that visit-order
validity check). WITH entries of NESTED sub-queries are outside this
guarantee: the compiler never visits them and silently drops them
(`csxlib_C8_alias_counterexample`). -/
theorem csxlib_C8_missing_alias_fails (q : Query)
    (h : compileVisitOk q = false) : ∃ e, prepareQuery q = .error e := by
  cases hpq : prepareQuery q with
  | error e => exact ⟨e, rfl⟩
  | ok s =>
    exfalso
    unfold prepareQuery at hpq
    split at hpq
    · exact absurd hpq (by simp)
    · split at hpq
      · exact absurd hpq (by simp)
      · split at hpq
        · exact absurd hpq (by simp)
        · rename_i x2 wp hw x1 sp hsp x0 up hu
          have hWith : withEntriesOk q.withL = true := by
            by_cases hlen : q.withL.length > 0
            · rw [if_pos hlen] at hw
              obtain ⟨entries, hent, _⟩ := except_map_ok hw
              exact prepareWithList_ok_entries _ _ hent
            · have : q.withL = [] := List.length_eq_zero.mp (by omega)
              rw [this]
              rfl
          have hSel : queryFromsOk q = true :=
            prepareSelectStatement_ok_froms _ _ hsp
          have hUnion : (match q.union with
              | some uc => unionChainOk uc
              | none => true) = true := by
            cases hqu : q.union with
            | none => rfl
            | some uc =>
              rw [hqu] at hu
              exact prepareUnionClause_ok_chain _ _ hu
          rw [compileVisitOk, hWith, hSel, hUnion] at h
          simp at h

theorem csxlib_C8_witness :
    compileVisitOk
      (.mk [.mk "" (.mk [] none "1" (some (.table "a")) "" "" "" "" "" 0 0)]
        none "*" (some (.table "t")) "" "" "" "" "" 0 0) = false
    ∧ ∃ e, prepareQuery
      (.mk [.mk "" (.mk [] none "1" (some (.table "a")) "" "" "" "" "" 0 0)]
        none "*" (some (.table "t")) "" "" "" "" "" 0 0) = .error e :=
  ⟨rfl, csxlib_C8_missing_alias_fails _ rfl⟩

/-- C8 counterexample. A WITH entry with an empty alias attached to a
NESTED sub-query is neither validated nor emitted: the compiler never
visits the `With` list of a nested query, so compilation succeeds and the
whole nested WITH clause (not just its alias) is silently dropped. -/
theorem csxlib_C8_alias_counterexample :
    prepareQuery
      (.mk [] none "*"
        (some (.sub (.mk "x"
          (.mk [.mk "" (.mk [] none "2" (some (.table "b")) "" "" "" "" "" 0 0)]
            none "x" (some (.table "u")) "" "" "" "" "" 0 0))))
        "" "" "" "" "" 0 0)
      = .ok "\nSELECT *\nFROM (\nSELECT x\nFROM u) AS x"
    ∧ ¬ ("WITH".toList <:+: "\nSELECT *\nFROM (\nSELECT x\nFROM u) AS x".toList) :=
  ⟨rfl, by decide⟩

lemma prepareQuery_parts (q : Query) (s : String) (h : prepareQuery q = .ok s) :
    ∃ wp sp up, prepareSelectStatement q = .ok sp ∧ s = wp ++ sp ++ up := by
  unfold prepareQuery at h
  split at h
  · exact absurd h (by simp)
  · split at h
    · exact absurd h (by simp)
    · split at h
      · exact absurd h (by simp)
      · rename_i x2 wp hw x1 sp hsp x0 up hu
        exact ⟨wp, sp, up, hsp, (Except.ok.inj h).symm⟩

lemma prepareSelectStatement_limit_one (q : Query) (sp : String)
    (hsp : prepareSelectStatement q = .ok sp) (hlim : q.limit = 1) :
    ∃ a b, sp = a ++ "\nLIMIT 1" ++ b := by
  obtain ⟨w, u, sel, f, j, wh, g, h, o, l, off⟩ := q
  have hl : l = 1 := hlim
  subst hl
  simp only [prepareSelectStatement] at hsp
  obtain ⟨fp, _, hsp⟩ := except_bind_ok hsp
  replace hsp := (Except.ok.inj hsp).symm
  subst hsp
  refine ⟨"\nSELECT " ++ sel ++ fp
      ++ (if j.length > 0 then "\n" ++ j else "")
      ++ (if wh.length > 0 then "\nWHERE " ++ wh else "")
      ++ (if g.length > 0 then
            "\nGROUP BY " ++ g ++ (if h.length > 0 then "\nHAVING " ++ h else "")
          else "")
      ++ (if o.length > 0 then "\nORDER BY " ++ o else ""),
    (if off > 0 then "\nOFFSET " ++ toString off else ""), ?_⟩
  rw [if_pos (by norm_num : (1 : Int) > 0)]
  rfl

/-- C10 (amended). `SelectOne`/`Get` writes `Limit = 1` into the caller's
query before compiling and `SetDefaults` replaces an empty projection with
`*` and a nil FROM with the schema's table; those three writes persist in
the caller's query after the call and every other query field is left
unchanged. Whenever compilation succeeds the SQL CONTAINS the clause
`LIMIT 1` — it ends with it only when no OFFSET or UNION text follows
(`csxlib_C10_limit_counterexample`). -/
theorem csxlib_C10_selectone_frame (q : Query) (tableName : String) :
    (schemaGet q tableName).1.limit = 1
    ∧ (schemaGet q tableName).1.select
      = (if q.select.length = 0 then "*" else q.select)
    ∧ (schemaGet q tableName).1.fromC
      = (if q.fromC.isNone then some (.table tableName) else q.fromC)
    ∧ (schemaGet q tableName).1.withL = q.withL
    ∧ (schemaGet q tableName).1.union = q.union
    ∧ (schemaGet q tableName).1.join = q.join
    ∧ (schemaGet q tableName).1.whereC = q.whereC
    ∧ (schemaGet q tableName).1.group = q.group
    ∧ (schemaGet q tableName).1.having = q.having
    ∧ (schemaGet q tableName).1.order = q.order
    ∧ (schemaGet q tableName).1.offset = q.offset
    ∧ ∀ s, (schemaGet q tableName).2 = .ok s →
        ∃ pre post, s = pre ++ "\nLIMIT 1" ++ post := by
  obtain ⟨w, u, sel, f, j, wh, g, h, o, l, off⟩ := q
  refine ⟨rfl, rfl, rfl, rfl, rfl, rfl, rfl, rfl, rfl, rfl, rfl, ?_⟩
  intro s hs
  obtain ⟨wp, sp, up, hsp, hparts⟩ := prepareQuery_parts _ s hs
  obtain ⟨a, b, hab⟩ := prepareSelectStatement_limit_one _ sp hsp rfl
  subst hparts hab
  exact ⟨wp ++ a, b ++ up, by simp only [String.append_assoc]⟩

theorem csxlib_C10_witness :
    (schemaGet (.mk [] none "" none "" "" "" "" "" 0 0) "t").1.limit = 1
    ∧ ∃ pre post, "\nSELECT *\nFROM t\nLIMIT 1" = pre ++ "\nLIMIT 1" ++ post := by
  have h := csxlib_C10_selectone_frame (.mk [] none "" none "" "" "" "" "" 0 0) "t"
  exact ⟨h.1,
    h.2.2.2.2.2.2.2.2.2.2.2 "\nSELECT *\nFROM t\nLIMIT 1" rfl⟩

/-- C10 counterexample. `SelectOne`/`Get` does force LIMIT 1, but the
compiled SQL does not END with `LIMIT 1` whenever an OFFSET follows: with
`Offset = 5` the statement ends with `OFFSET 5`. -/
theorem csxlib_C10_limit_counterexample :
    schemaGet (.mk [] none "c" (some (.table "t")) "" "" "" "" "" 0 5) "t2"
      = (.mk [] none "c" (some (.table "t")) "" "" "" "" "" 1 5,
        .ok "\nSELECT c\nFROM t\nLIMIT 1\nOFFSET 5")
    ∧ ¬ ("LIMIT 1".toList <:+ "\nSELECT c\nFROM t\nLIMIT 1\nOFFSET 5".toList) :=
  ⟨rfl, by decide⟩

end Csxlib
